import Mathlib

/-!
Verification development for the Zora first-minted-artwork fetcher.

The embedding below follows the source file that exports
fetchFirstMintedArtwork together with its module-level rate limiter.
Timestamps and wait durations are modelled as exact rationals: the
source manipulates JavaScript numbers, and every numeric value reached
by the properties proved here is exactly representable, so the rational
model coincides with the source on all inputs considered.

The HTTP layer is modelled by an oracle mapping each attempt index to
the outcome the axios call produces on that attempt; the retry loop is
embedded as a fuel-indexed recursion whose fuel starts at
maxRetries + 1, matching the bound of the for loop in the source.
-/

/- ---------------------------------------------------------------- -/
/- Rate limiter (module-level state requestCount / lastRequestTime)  -/
/- ---------------------------------------------------------------- -/

structure RateLimitState where
  requestCount : Nat
  lastRequestTime : ℚ
deriving DecidableEq

def RATE_LIMIT_WINDOW : ℚ := 60000

def MAX_REQUESTS_PER_WINDOW : Nat := 30

/-- Initial module state of the source: requestCount = 0 and
lastRequestTime = 0. -/
def initialRateLimitState : RateLimitState :=
  { requestCount := 0, lastRequestTime := 0 }

/-- Embeds checkRateLimit from the source: reset the counter and the
window anchor when the window has passed, refuse when the counter has
reached the quota, otherwise increment the counter and grant. -/
def checkRateLimit (now : ℚ) (s : RateLimitState) : Bool × RateLimitState :=
  let s1 := if now - s.lastRequestTime > RATE_LIMIT_WINDOW then
      { requestCount := 0, lastRequestTime := now }
    else s
  if s1.requestCount ≥ MAX_REQUESTS_PER_WINDOW then
    (false, s1)
  else
    (true, { s1 with requestCount := s1.requestCount + 1 })

/-- Repeated calls of checkRateLimit at a given clock value, returning
the list of grant results in order together with the final state. -/
def gateRun (now : ℚ) : Nat → RateLimitState → List Bool × RateLimitState
  | 0, s => ([], s)
  | n + 1, s =>
    let r := checkRateLimit now s
    let rest := gateRun now n r.2
    (r.1 :: rest.1, rest.2)

/- ---------------------------------------------------------------- -/
/- GraphQL response envelope                                         -/
/- ---------------------------------------------------------------- -/

structure PreviewLeaf where
  downloadableUri : Option String
deriving DecidableEq

structure PreviewWrap where
  previewImage : Option PreviewLeaf
deriving DecidableEq

structure MediaObj where
  previewImage : Option PreviewWrap
deriving DecidableEq

structure NodeObj where
  media : Option MediaObj
deriving DecidableEq

structure EdgeObj where
  node : Option NodeObj
deriving DecidableEq

structure CollectedObj where
  edges : Option (List EdgeObj)
deriving DecidableEq

structure ProfileObj where
  collectedCollectionsOrTokens : Option CollectedObj
deriving DecidableEq

structure GraphQLData where
  profile : Option ProfileObj
deriving DecidableEq

/-- The response body. A null body behaves exactly like a body whose
data field is missing, so both are represented by data = none. Every
field that the source reads through optional chaining is an Option;
the node field of an edge is also an Option because the wire value
need not match the declared TypeScript shape, and the source reads
node without optional chaining. -/
structure ZoraGraphQLResponse where
  data : Option GraphQLData
deriving DecidableEq

structure FirstMintedArtwork where
  downloadableUri : String
  address : String
deriving DecidableEq

/-- The optional chain response.data.data.profile
.collectedCollectionsOrTokens.edges from the source. -/
def edgesChain (resp : ZoraGraphQLResponse) : Option (List EdgeObj) :=
  (((resp.data.bind fun d => d.profile).bind
      fun p => p.collectedCollectionsOrTokens).bind fun c => c.edges)

/-- The optional chain node.media.previewImage.previewImage
.downloadableUri from the source, starting below the node field. -/
def nodeUri (n : NodeObj) : Option String :=
  (((n.media.bind fun m => m.previewImage).bind
      fun p => p.previewImage).bind fun l => l.downloadableUri)

inductive UnwrapResult where
  | value (result : Option FirstMintedArtwork)
  | typeError
deriving DecidableEq

/-- Embeds the success path of the source (the body of the try from
the edges check through the return): missing or empty edges give null;
reading media on a missing node raises a TypeError, because the source
does not guard the node access with optional chaining; a missing or
empty downloadableUri leaf gives null; otherwise the artwork record is
returned. -/
def unwrapEnvelope (address : String) (resp : ZoraGraphQLResponse) : UnwrapResult :=
  match edgesChain resp with
  | none => UnwrapResult.value none
  | some [] => UnwrapResult.value none
  | some (e :: _) =>
    match e.node with
    | none => UnwrapResult.typeError
    | some n =>
      match nodeUri n with
      | none => UnwrapResult.value none
      | some uri =>
        if uri = "" then UnwrapResult.value none
        else UnwrapResult.value (some { downloadableUri := uri, address := address })

/- ---------------------------------------------------------------- -/
/- Wait-time computation for 429 responses                           -/
/- ---------------------------------------------------------------- -/

/-- Consume the characters of a literal from the front of a list. -/
def dropLit : List Char → List Char → Option (List Char)
  | [], cs => some cs
  | _ :: _, [] => none
  | l :: ls, c :: cs => if c = l then dropLit ls cs else none

/-- Split a character list into its leading run of decimal digits and
the remainder. -/
def takeDigits : List Char → List Char × List Char
  | [] => ([], [])
  | c :: cs =>
    if c.isDigit then
      let p := takeDigits cs
      (c :: p.1, p.2)
    else ([], c :: cs)

/-- Decimal value of a digit list. -/
def digitsVal (cs : List Char) : Nat :=
  cs.foldl (fun a c => a * 10 + (c.toNat - 48)) 0

def litTryAgainAfter : List Char := ("try again after ").toList

def litSeconds : List Char := (" seconds").toList

/-- One anchored attempt of the regular expression of the source,
try again after (digits, optional dot, digits) seconds, at the head of
the list. The digit groups are taken greedily, which agrees with the
backtracking semantics of this particular pattern. The captured
numeral is returned as its exact decimal value. -/
def matchNumberAt (cs : List Char) : Option ℚ :=
  match dropLit litTryAgainAfter cs with
  | none => none
  | some cs1 =>
    let p1 := takeDigits cs1
    if p1.1.isEmpty then none
    else
      match p1.2 with
      | '.' :: cs3 =>
        let p2 := takeDigits cs3
        match dropLit litSeconds p2.2 with
        | some _ =>
          some ((digitsVal p1.1 : ℚ) + (digitsVal p2.1 : ℚ) / (10 : ℚ) ^ p2.1.length)
        | none => none
      | rest =>
        match dropLit litSeconds rest with
        | some _ => some ((digitsVal p1.1 : ℚ))
        | none => none

/-- Unanchored search, matching the first position at which the
pattern succeeds, as String.match does in the source. -/
def searchTryAgain : List Char → Option ℚ
  | [] => none
  | c :: cs =>
    match matchNumberAt (c :: cs) with
    | some q => some q
    | none => searchTryAgain cs

def matchTryAgainSeconds (s : String) : Option ℚ :=
  searchTryAgain s.toList

/-- JavaScript truthiness of an optional string: present and
nonempty. -/
def strTruthy : Option String → Bool
  | none => false
  | some s => !(s == "")

/-- Leading-integer parse modelling parseInt as the source applies it
to the retry-after header: skip whitespace, optional sign, then a
nonempty run of decimal digits; none models NaN. The automatic
hexadecimal mode of parseInt for 0x inputs is not reached by any
property considered here. -/
def parseIntLeading (s : String) : Option Int :=
  let cs := (s.toList).dropWhile fun c => c.isWhitespace
  let signed : Int × List Char :=
    match cs with
    | '-' :: r => (-1, r)
    | '+' :: r => (1, r)
    | r => (1, r)
  let p := takeDigits signed.2
  if p.1.isEmpty then none else some (signed.1 * (digitsVal p.1 : Int))

/-- Embeds the wait-time computation of the 429 branch of the source:
start from exponential backoff; if the detail field is truthy and the
try-again pattern matches, use the parsed seconds times 1000; the
retry-after header is consulted only when the detail field is falsy,
and an unparsable header yields NaN, modelled as none. -/
def computeWait429 (attempt : Nat) (detail retryAfter : Option String) : Option ℚ :=
  let w0 : Option ℚ := some ((2 : ℚ) ^ attempt * 1000)
  let w1 : Option ℚ :=
    if strTruthy detail then
      match matchTryAgainSeconds (detail.getD ("")) with
      | some q => some (q * 1000)
      | none => w0
    else w0
  if !(strTruthy detail) && strTruthy retryAfter then
    match parseIntLeading (retryAfter.getD ("")) with
    | some n => some ((n : ℚ) * 1000)
    | none => none
  else w1

/-- Modelled from the claim wording for comparison with the source:
precedence (a) detail present and matching the pattern, else (b) the
retry-after header when present, else (c) exponential backoff. -/
def computeWait429Claimed (attempt : Nat) (detail retryAfter : Option String) : Option ℚ :=
  match detail.bind matchTryAgainSeconds with
  | some q => some (q * 1000)
  | none =>
    match retryAfter with
    | some h => (parseIntLeading h).map fun n => (n : ℚ) * 1000
    | none => some ((2 : ℚ) ^ attempt * 1000)

/- ---------------------------------------------------------------- -/
/- Retry orchestrator                                                -/
/- ---------------------------------------------------------------- -/

/-- Outcome of the axios call on a given attempt. The last two
constructors are an axios error carrying neither response nor request
nor the timeout code, and a thrown value that is not an axios error. -/
inductive AttemptOutcome where
  | success (resp : ZoraGraphQLResponse)
  | httpFailure (status : Nat) (detail : Option String) (retryAfter : Option String)
  | requestNoResponse
  | timeoutAborted
  | axiosNoRequestInfo
  | nonAxiosThrow
deriving DecidableEq

/-- The lastError value recorded by the catch block, abstracted to the
information the control flow and the final message depend on. -/
inductive FailureCause where
  | invalidAddress
  | http (status : Nat) (detail : Option String) (retryAfter : Option String)
  | noResponse
  | timedOut
  | axiosMisc
  | nonAxios
  | jsTypeError
deriving DecidableEq

/-- Result of a whole fetchFirstMintedArtwork run: a resolved value,
the dedicated throw of the exhausted 429 branch, or the final wrapping
throw after the loop. -/
inductive FetchOutcome where
  | ok (result : Option FirstMintedArtwork)
  | rateLimitExceeded (attempts : Nat)
  | wrappedError (address : String) (cause : Option FailureCause)
deriving DecidableEq

/-- Observable trace of a run: the simulated clock, the rate-limiter
state, every slept duration in order, and how many HTTP calls and
rate-gate checks were made. -/
structure FetchTrace where
  time : ℚ
  rate : RateLimitState
  waits : List ℚ
  httpCalls : Nat
  gateCalls : Nat
deriving DecidableEq

def sleepT (ms : ℚ) (st : FetchTrace) : FetchTrace :=
  { st with time := st.time + ms, waits := st.waits ++ [ms] }

def gateT (st : FetchTrace) : Bool × FetchTrace :=
  let r := checkRateLimit st.time st.rate
  (r.1, { st with rate := r.2, gateCalls := st.gateCalls + 1 })

/-- Embeds the rate-limit step of the loop body: one gate check; when
it refuses, sleep for the remaining window time and check once more,
ignoring the result of the second check. -/
def gateStage (st : FetchTrace) : FetchTrace :=
  let g := gateT st
  if g.1 then g.2
  else
    let timeToWait := RATE_LIMIT_WINDOW - (g.2.time - g.2.rate.lastRequestTime)
    (gateT (sleepT timeToWait g.2)).2

def bumpHttp (st : FetchTrace) : FetchTrace :=
  { st with httpCalls := st.httpCalls + 1 }

/-- Embeds the for loop of fetchFirstMintedArtwork. The fuel argument
counts the remaining loop iterations, so it starts at maxRetries + 1;
the zero-fuel case is the fall-through exit of the loop. Each
iteration validates the address, runs the rate-limit stage, issues the
HTTP call, and classifies the outcome exactly as the catch block of
the source does, recursing on retry and otherwise producing the value
the source returns or throws. -/
def runAttempts (oracle : Nat → AttemptOutcome) (address : String) (maxRetries : Nat) :
    Nat → Nat → Option FailureCause → FetchTrace → FetchOutcome × FetchTrace
  | 0, _, lastError, st => (FetchOutcome.wrappedError address lastError, st)
  | fuel + 1, attempt, _, st =>
    if address = "" then
      (FetchOutcome.wrappedError address (some FailureCause.invalidAddress), st)
    else
      let st3 := bumpHttp (gateStage st)
      match oracle attempt with
      | AttemptOutcome.success resp =>
        match unwrapEnvelope address resp with
        | UnwrapResult.value v => (FetchOutcome.ok v, st3)
        | UnwrapResult.typeError =>
          (FetchOutcome.wrappedError address (some FailureCause.jsTypeError), st3)
      | AttemptOutcome.httpFailure status detail retryAfter =>
        let cause := FailureCause.http status detail retryAfter
        if status = 429 then
          if attempt < maxRetries then
            runAttempts oracle address maxRetries fuel (attempt + 1) (some cause)
              (sleepT (Option.getD (computeWait429 attempt detail retryAfter) 0) st3)
          else
            (FetchOutcome.rateLimitExceeded (maxRetries + 1), st3)
        else if status = 403 then
          if attempt < maxRetries then
            runAttempts oracle address maxRetries fuel (attempt + 1) (some cause)
              (sleepT ((2 : ℚ) ^ attempt * 2000) st3)
          else
            (FetchOutcome.wrappedError address (some cause), st3)
        else if 500 ≤ status ∧ attempt < maxRetries then
          runAttempts oracle address maxRetries fuel (attempt + 1) (some cause)
            (sleepT ((2 : ℚ) ^ attempt * 1000) st3)
        else
          (FetchOutcome.wrappedError address (some cause), st3)
      | AttemptOutcome.requestNoResponse =>
        if attempt < maxRetries then
          runAttempts oracle address maxRetries fuel (attempt + 1)
            (some FailureCause.noResponse)
            (sleepT ((2 : ℚ) ^ attempt * 1000) st3)
        else
          (FetchOutcome.wrappedError address (some FailureCause.noResponse), st3)
      | AttemptOutcome.timeoutAborted =>
        if attempt < maxRetries then
          runAttempts oracle address maxRetries fuel (attempt + 1)
            (some FailureCause.timedOut)
            (sleepT ((2 : ℚ) ^ attempt * 1000) st3)
        else
          (FetchOutcome.wrappedError address (some FailureCause.timedOut), st3)
      | AttemptOutcome.axiosNoRequestInfo =>
        (FetchOutcome.wrappedError address (some FailureCause.axiosMisc), st3)
      | AttemptOutcome.nonAxiosThrow =>
        (FetchOutcome.wrappedError address (some FailureCause.nonAxios), st3)

/-- Embeds fetchFirstMintedArtwork: run the loop from attempt 0 with
fuel maxRetries + 1, no last error, and an empty trace starting at the
given clock value and rate-limiter state. -/
def fetchFirstMintedArtwork (oracle : Nat → AttemptOutcome) (address : String)
    (maxRetries : Nat) (startTime : ℚ) (rate0 : RateLimitState) :
    FetchOutcome × FetchTrace :=
  runAttempts oracle address maxRetries (maxRetries + 1) 0 none
    { time := startTime, rate := rate0, waits := [], httpCalls := 0, gateCalls := 0 }

/-- Rendering of the recorded last error, as JavaScript string
interpolation displays it in the final wrapping message. -/
def causeText : Option FailureCause → String
  | none => "undefined"
  | some FailureCause.invalidAddress => "Error: Invalid address provided"
  | some (FailureCause.http status _ _) =>
    "AxiosError: Request failed with status code " ++ toString status
  | some FailureCause.noResponse => "AxiosError: Network Error"
  | some FailureCause.timedOut => "AxiosError: timeout of 10000ms exceeded"
  | some FailureCause.axiosMisc => "AxiosError"
  | some FailureCause.nonAxios => "TypeError"
  | some FailureCause.jsTypeError =>
    "TypeError: Cannot read properties of undefined"

/-- The message of the final wrapping error thrown after the loop. -/
def wrappedMessage (address : String) (cause : Option FailureCause) : String :=
  "Failed to fetch first minted artwork for address " ++ address ++ ": " ++
    causeText cause

/- ---------------------------------------------------------------- -/
/- Sample response values used by witnesses                          -/
/- ---------------------------------------------------------------- -/

def sampleEdge (uri : Option String) : EdgeObj :=
  { node := some { media := some { previewImage := some { previewImage := some { downloadableUri := uri } } } } }

def responseWithEdges (es : Option (List EdgeObj)) : ZoraGraphQLResponse :=
  { data := some { profile := some { collectedCollectionsOrTokens := some { edges := es } } } }

def sampleResponse (uri : Option String) : ZoraGraphQLResponse :=
  responseWithEdges (some [sampleEdge uri])

/- ---------------------------------------------------------------- -/
/- Helper lemmas                                                     -/
/- ---------------------------------------------------------------- -/

lemma checkRateLimit_grant_same (now : ℚ) (c : Nat) (hc : c < 30) :
    checkRateLimit now { requestCount := c, lastRequestTime := now }
      = (true, { requestCount := c + 1, lastRequestTime := now }) := by
  norm_num [checkRateLimit, RATE_LIMIT_WINDOW, MAX_REQUESTS_PER_WINDOW]
  omega

lemma gateRun_grants (now : ℚ) :
    ∀ (n c : Nat), c + n ≤ 30 →
      gateRun now n { requestCount := c, lastRequestTime := now }
        = (List.replicate n true, { requestCount := c + n, lastRequestTime := now }) := by
  intro n
  induction n with
  | zero => intro c _; simp [gateRun]
  | succ k ih =>
    intro c hc
    have h1 := checkRateLimit_grant_same now c (by omega)
    have h2 := ih (c + 1) (by omega)
    simp [gateRun, h1, h2, List.replicate_succ]
    omega

lemma checkRateLimit_deny_eq (now : ℚ) (s : RateLimitState)
    (h : (checkRateLimit now s).1 = false) : (checkRateLimit now s).2 = s := by
  by_cases hr : now - s.lastRequestTime > RATE_LIMIT_WINDOW
  · simp [checkRateLimit, hr, MAX_REQUESTS_PER_WINDOW] at h
  · by_cases hc : s.requestCount ≥ MAX_REQUESTS_PER_WINDOW
    · simp [checkRateLimit, hr, hc]
    · simp [checkRateLimit, hr, hc] at h

lemma qfact_70000 : (70000 : ℚ) - 0 > 60000 := by norm_num

lemma qfact_within5 : ¬ (5 : ℚ) - 0 > RATE_LIMIT_WINDOW := by
  norm_num [RATE_LIMIT_WINDOW]

lemma qfact_deny30 :
    (checkRateLimit 0 { requestCount := 30, lastRequestTime := 0 }).1 = false := by
  norm_num [checkRateLimit, RATE_LIMIT_WINDOW, MAX_REQUESTS_PER_WINDOW]

/- ---------------------------------------------------------------- -/
/- Claim theorems                                                    -/
/- ---------------------------------------------------------------- -/

/-- Claim C1: starting from a fresh window anchored at the current
clock value, the first 30 gate calls all return true and leave the
window anchor unchanged, the 31st call returns false without mutating
the state, and once the clock has advanced past the 60 second window a
further call resets the window, returns true, and leaves the counter
at 1. -/
theorem checkRateLimit_window_quota (now : ℚ) :
    gateRun now 30 { requestCount := 0, lastRequestTime := now }
        = (List.replicate 30 true, { requestCount := 30, lastRequestTime := now })
      ∧ checkRateLimit now { requestCount := 30, lastRequestTime := now }
          = (false, { requestCount := 30, lastRequestTime := now })
      ∧ ∀ later : ℚ, later - now > 60000 →
          checkRateLimit later { requestCount := 30, lastRequestTime := now }
            = (true, { requestCount := 1, lastRequestTime := later }) := by
  refine ⟨?_, ?_, ?_⟩
  · simpa using gateRun_grants now 30 0 (by omega)
  · norm_num [checkRateLimit, RATE_LIMIT_WINDOW, MAX_REQUESTS_PER_WINDOW]
  · intro later hl
    norm_num [checkRateLimit, RATE_LIMIT_WINDOW, MAX_REQUESTS_PER_WINDOW, hl]

theorem checkRateLimit_window_quota_witness :
    checkRateLimit 70000 { requestCount := 30, lastRequestTime := 0 }
      = (true, { requestCount := 1, lastRequestTime := 70000 }) :=
  (checkRateLimit_window_quota 0).2.2 70000 qfact_70000

/-- Claim C10: the gate mutates only the request counter and the
window anchor; within the current window a granting call increments
the counter and leaves the window anchor unchanged, and a refusing
call leaves the whole state unchanged, so the window stays anchored at
the last reset rather than sliding per request. -/
theorem checkRateLimit_frame (now : ℚ) (s : RateLimitState) :
    (¬ now - s.lastRequestTime > RATE_LIMIT_WINDOW →
        (checkRateLimit now s).2.lastRequestTime = s.lastRequestTime
          ∧ ((checkRateLimit now s).1 = true →
              (checkRateLimit now s).2.requestCount = s.requestCount + 1))
      ∧ ((checkRateLimit now s).1 = false → (checkRateLimit now s).2 = s) := by
  refine ⟨fun hr => ?_, checkRateLimit_deny_eq now s⟩
  by_cases hc : s.requestCount ≥ MAX_REQUESTS_PER_WINDOW <;>
    simp [checkRateLimit, hr, hc]

theorem checkRateLimit_frame_witness :
    (checkRateLimit 5 { requestCount := 2, lastRequestTime := 0 }).2.lastRequestTime = 0
      ∧ (checkRateLimit 0 { requestCount := 30, lastRequestTime := 0 }).2
          = { requestCount := 30, lastRequestTime := 0 } :=
  ⟨((checkRateLimit_frame 5 { requestCount := 2, lastRequestTime := 0 }).1 qfact_within5).1,
   (checkRateLimit_frame 0 { requestCount := 30, lastRequestTime := 0 }).2 qfact_deny30⟩

lemma fetch_success_attempt0 (address : String) (h : address ≠ "") (maxRetries : Nat)
    (resp : ZoraGraphQLResponse) :
    fetchFirstMintedArtwork (fun _ => AttemptOutcome.success resp) address maxRetries 0
        initialRateLimitState
      = ((match unwrapEnvelope address resp with
          | UnwrapResult.value v => FetchOutcome.ok v
          | UnwrapResult.typeError =>
              FetchOutcome.wrappedError address (some FailureCause.jsTypeError)),
         { time := 0, rate := { requestCount := 1, lastRequestTime := 0 }, waits := [],
           httpCalls := 1, gateCalls := 1 }) := by
  cases hu : unwrapEnvelope address resp <;>
    norm_num [fetchFirstMintedArtwork, runAttempts, gateStage, gateT, bumpHttp,
      checkRateLimit, initialRateLimitState, RATE_LIMIT_WINDOW, MAX_REQUESTS_PER_WINDOW,
      h, hu]

/-- Claim C5: an empty address input fails at once with the invalid
input cause, before any HTTP call is issued, before a single gate
check runs, and with the rate-limit state and clock untouched. A value
of another runtime type in the address position is outside this typed
embedding; the source treats it identically to the empty string. -/
theorem fetch_invalid_address_immediate (oracle : Nat → AttemptOutcome)
    (maxRetries : Nat) (startTime : ℚ) (rate0 : RateLimitState) :
    fetchFirstMintedArtwork oracle ("") maxRetries startTime rate0
      = (FetchOutcome.wrappedError ("") (some FailureCause.invalidAddress),
         { time := startTime, rate := rate0, waits := [], httpCalls := 0,
           gateCalls := 0 }) := by
  simp [fetchFirstMintedArtwork, runAttempts]

/-- Claim C3: with the default maxRetries = 3 and a server answering
500 on every attempt, the run makes exactly 4 HTTP calls, sleeps 1000,
2000 and 4000 milliseconds between consecutive attempts, and ends in
the terminal wrapping error whose recorded cause is the last 500
failure and whose message contains the target address. -/
theorem fetch_server_errors_exhaust_retries (address : String) (h : address ≠ "") :
    fetchFirstMintedArtwork (fun _ => AttemptOutcome.httpFailure 500 none none)
        address 3 0 initialRateLimitState
      = (FetchOutcome.wrappedError address (some (FailureCause.http 500 none none)),
         { time := 7000, rate := { requestCount := 4, lastRequestTime := 0 },
           waits := [1000, 2000, 4000], httpCalls := 4, gateCalls := 4 })
      ∧ ∃ pre post : String,
          wrappedMessage address (some (FailureCause.http 500 none none))
            = pre ++ address ++ post := by
  constructor
  · norm_num [fetchFirstMintedArtwork, runAttempts, gateStage, gateT, bumpHttp, sleepT,
      checkRateLimit, initialRateLimitState, RATE_LIMIT_WINDOW, MAX_REQUESTS_PER_WINDOW, h]
  · refine ⟨"Failed to fetch first minted artwork for address ",
      ": " ++ causeText (some (FailureCause.http 500 none none)), ?_⟩
    simp [wrappedMessage, String.append_assoc]

theorem fetch_server_errors_exhaust_retries_witness :
    fetchFirstMintedArtwork (fun _ => AttemptOutcome.httpFailure 500 none none)
        ("0xabc") 3 0 initialRateLimitState
      = (FetchOutcome.wrappedError ("0xabc") (some (FailureCause.http 500 none none)),
         { time := 7000, rate := { requestCount := 4, lastRequestTime := 0 },
           waits := [1000, 2000, 4000], httpCalls := 4, gateCalls := 4 })
      ∧ ∃ pre post : String,
          wrappedMessage ("0xabc") (some (FailureCause.http 500 none none))
            = pre ++ ("0xabc") ++ post :=
  fetch_server_errors_exhaust_retries ("0xabc") (by decide)

/-- Claim C7: a 403 outcome at an attempt with retries remaining makes
the loop sleep two to the attempt times 2000 milliseconds and re-enter
at the next attempt; when every attempt yields 403 the run ends in the
generic wrapping error carrying the last 403 as cause, not in a
dedicated forbidden error. -/
theorem fetch_403_backoff_and_fallthrough :
    (∀ (oracle : Nat → AttemptOutcome) (address : String)
        (maxRetries fuel attempt : Nat) (lastError : Option FailureCause)
        (st : FetchTrace) (detail retryAfter : Option String),
        address ≠ "" →
        oracle attempt = AttemptOutcome.httpFailure 403 detail retryAfter →
        attempt < maxRetries →
        runAttempts oracle address maxRetries (fuel + 1) attempt lastError st
          = runAttempts oracle address maxRetries fuel (attempt + 1)
              (some (FailureCause.http 403 detail retryAfter))
              (sleepT ((2 : ℚ) ^ attempt * 2000) (bumpHttp (gateStage st))))
      ∧ ∀ address : String, address ≠ "" →
          fetchFirstMintedArtwork (fun _ => AttemptOutcome.httpFailure 403 none none)
              address 3 0 initialRateLimitState
            = (FetchOutcome.wrappedError address (some (FailureCause.http 403 none none)),
               { time := 14000, rate := { requestCount := 4, lastRequestTime := 0 },
                 waits := [2000, 4000, 8000], httpCalls := 4, gateCalls := 4 }) := by
  constructor
  · intro oracle address maxRetries fuel attempt lastError st detail retryAfter
      ha ho hlt
    simp only [runAttempts, if_neg ha, ho]
    norm_num [hlt]
  · intro address h
    norm_num [fetchFirstMintedArtwork, runAttempts, gateStage, gateT, bumpHttp, sleepT,
      checkRateLimit, initialRateLimitState, RATE_LIMIT_WINDOW, MAX_REQUESTS_PER_WINDOW, h]

theorem fetch_403_backoff_and_fallthrough_witness :
    (runAttempts (fun _ => AttemptOutcome.httpFailure 403 none none) ("0xa") 3 1 0 none
        { time := 0, rate := initialRateLimitState, waits := [], httpCalls := 0,
          gateCalls := 0 }
      = runAttempts (fun _ => AttemptOutcome.httpFailure 403 none none) ("0xa") 3 0 1
          (some (FailureCause.http 403 none none))
          (sleepT ((2 : ℚ) ^ 0 * 2000) (bumpHttp (gateStage
            { time := 0, rate := initialRateLimitState, waits := [], httpCalls := 0,
              gateCalls := 0 }))))
      ∧ fetchFirstMintedArtwork (fun _ => AttemptOutcome.httpFailure 403 none none)
            ("0xabc") 3 0 initialRateLimitState
          = (FetchOutcome.wrappedError ("0xabc")
               (some (FailureCause.http 403 none none)),
             { time := 14000, rate := { requestCount := 4, lastRequestTime := 0 },
               waits := [2000, 4000, 8000], httpCalls := 4, gateCalls := 4 }) :=
  ⟨fetch_403_backoff_and_fallthrough.1 (fun _ => AttemptOutcome.httpFailure 403 none none)
      ("0xa") 3 0 0 none
      { time := 0, rate := initialRateLimitState, waits := [], httpCalls := 0,
        gateCalls := 0 } none none (by decide) rfl (by decide),
   fetch_403_backoff_and_fallthrough.2 ("0xabc") (by decide)⟩

/-- Claim C6: a well-formed envelope whose first edge carries the
downloadable URI ipfs://abc makes the fetch resolve with exactly that
URI paired with the input address verbatim. -/
theorem fetch_wellformed_returns_artwork (address : String) (h : address ≠ "")
    (resp : ZoraGraphQLResponse) (e : EdgeObj) (es : List EdgeObj) (n : NodeObj)
    (he : edgesChain resp = some (e :: es)) (hn : e.node = some n)
    (hu : nodeUri n = some ("ipfs://abc")) (maxRetries : Nat) :
    fetchFirstMintedArtwork (fun _ => AttemptOutcome.success resp) address maxRetries 0
        initialRateLimitState
      = (FetchOutcome.ok (some { downloadableUri := "ipfs://abc", address := address }),
         { time := 0, rate := { requestCount := 1, lastRequestTime := 0 }, waits := [],
           httpCalls := 1, gateCalls := 1 }) := by
  have hu2 : unwrapEnvelope address resp
      = UnwrapResult.value
          (some { downloadableUri := "ipfs://abc", address := address }) := by
    simp [unwrapEnvelope, he, hn, hu]
  rw [fetch_success_attempt0 address h maxRetries resp, hu2]

theorem fetch_wellformed_returns_artwork_witness :
    fetchFirstMintedArtwork
        (fun _ => AttemptOutcome.success (sampleResponse (some ("ipfs://abc"))))
        ("0xa") 3 0 initialRateLimitState
      = (FetchOutcome.ok (some { downloadableUri := "ipfs://abc", address := "0xa" }),
         { time := 0, rate := { requestCount := 1, lastRequestTime := 0 }, waits := [],
           httpCalls := 1, gateCalls := 1 }) :=
  fetch_wellformed_returns_artwork ("0xa") (by decide)
    (sampleResponse (some ("ipfs://abc"))) (sampleEdge (some ("ipfs://abc"))) [] _
    rfl rfl rfl 3

lemma fetch_missing_node_run :
    fetchFirstMintedArtwork
        (fun _ => AttemptOutcome.success (responseWithEdges (some [{ node := none }])))
        ("0xabc") 3 0 initialRateLimitState
      = (FetchOutcome.wrappedError ("0xabc") (some FailureCause.jsTypeError),
         { time := 0, rate := { requestCount := 1, lastRequestTime := 0 }, waits := [],
           httpCalls := 1, gateCalls := 1 }) := by
  have hu2 : unwrapEnvelope ("0xabc") (responseWithEdges (some [{ node := none }]))
      = UnwrapResult.typeError := rfl
  rw [fetch_success_attempt0 ("0xabc") (by decide) 3, hu2]

/-- Claim C4 counterexample: a 200 response whose single edge has no
node field does not yield null; the unguarded node access raises a
TypeError and the run ends in the terminal wrapping error. -/
theorem fetch_missing_node_not_null :
    fetchFirstMintedArtwork
        (fun _ => AttemptOutcome.success (responseWithEdges (some [{ node := none }])))
        ("0xabc") 3 0 initialRateLimitState
      = (FetchOutcome.wrappedError ("0xabc") (some FailureCause.jsTypeError),
         { time := 0, rate := { requestCount := 1, lastRequestTime := 0 }, waits := [],
           httpCalls := 1, gateCalls := 1 })
      ∧ (fetchFirstMintedArtwork
            (fun _ => AttemptOutcome.success
              (responseWithEdges (some [{ node := none }])))
            ("0xabc") 3 0 initialRateLimitState).1 ≠ FetchOutcome.ok none := by
  refine ⟨fetch_missing_node_run, ?_⟩
  rw [fetch_missing_node_run]
  simp

/-- Claim C4 as amended: a 200 response with absent or empty edges
yields null at once with a single HTTP call and no retry, and so does
a first edge whose node is present but whose downloadableUri leaf is
missing or empty anywhere below node; a first edge lacking node itself
instead raises the terminal wrapping error. -/
theorem fetch_null_on_absent_data (address : String) (h : address ≠ "")
    (maxRetries : Nat) :
    (∀ resp : ZoraGraphQLResponse,
        edgesChain resp = none ∨ edgesChain resp = some [] →
        fetchFirstMintedArtwork (fun _ => AttemptOutcome.success resp) address
            maxRetries 0 initialRateLimitState
          = (FetchOutcome.ok none,
             { time := 0, rate := { requestCount := 1, lastRequestTime := 0 },
               waits := [], httpCalls := 1, gateCalls := 1 }))
      ∧ ∀ (resp : ZoraGraphQLResponse) (e : EdgeObj) (es : List EdgeObj) (n : NodeObj),
          edgesChain resp = some (e :: es) → e.node = some n →
          nodeUri n = none ∨ nodeUri n = some ("") →
          fetchFirstMintedArtwork (fun _ => AttemptOutcome.success resp) address
              maxRetries 0 initialRateLimitState
            = (FetchOutcome.ok none,
               { time := 0, rate := { requestCount := 1, lastRequestTime := 0 },
                 waits := [], httpCalls := 1, gateCalls := 1 }) := by
  constructor
  · intro resp hc
    have hu2 : unwrapEnvelope address resp = UnwrapResult.value none := by
      rcases hc with hc | hc <;> simp [unwrapEnvelope, hc]
    rw [fetch_success_attempt0 address h maxRetries resp, hu2]
  · intro resp e es n he hn hun
    have hu2 : unwrapEnvelope address resp = UnwrapResult.value none := by
      rcases hun with hc | hc <;> simp [unwrapEnvelope, he, hn, hc]
    rw [fetch_success_attempt0 address h maxRetries resp, hu2]

theorem fetch_null_on_absent_data_witness :
    fetchFirstMintedArtwork (fun _ => AttemptOutcome.success (responseWithEdges none))
        ("0xa") 3 0 initialRateLimitState
      = (FetchOutcome.ok none,
         { time := 0, rate := { requestCount := 1, lastRequestTime := 0 }, waits := [],
           httpCalls := 1, gateCalls := 1 })
      ∧ fetchFirstMintedArtwork (fun _ => AttemptOutcome.success (sampleResponse none))
          ("0xa") 3 0 initialRateLimitState
        = (FetchOutcome.ok none,
           { time := 0, rate := { requestCount := 1, lastRequestTime := 0 }, waits := [],
             httpCalls := 1, gateCalls := 1 }) :=
  ⟨(fetch_null_on_absent_data ("0xa") (by decide) 3).1 (responseWithEdges none)
      (Or.inl rfl),
   (fetch_null_on_absent_data ("0xa") (by decide) 3).2 (sampleResponse none)
      (sampleEdge none) [] _ rfl rfl (Or.inl rfl)⟩

lemma runAttempts_result_state_independent (oracle : Nat → AttemptOutcome)
    (address : String) (maxRetries : Nat) :
    ∀ (fuel attempt : Nat) (lastError : Option FailureCause) (st1 st2 : FetchTrace),
      (runAttempts oracle address maxRetries fuel attempt lastError st1).1
        = (runAttempts oracle address maxRetries fuel attempt lastError st2).1 := by
  intro fuel
  induction fuel with
  | zero => intro attempt le st1 st2; simp [runAttempts]
  | succ f ih =>
    intro attempt le st1 st2
    simp only [runAttempts]
    by_cases ha : address = ""
    · simp [ha]
    · simp only [if_neg ha]
      split
      · split <;> rfl
      · split_ifs <;> first | rfl | exact ih _ _ _ _
      · split_ifs <;> first | rfl | exact ih _ _ _ _
      · split_ifs <;> first | rfl | exact ih _ _ _ _
      · rfl
      · rfl

/-- Claim C8: the resolved or rejected outcome of a run is entirely
independent of the rate-limit state and clock, so an exhausted local
quota can never cause a rejection; and a refused gate check makes the
loop sleep exactly the remaining window time, re-invoke the gate
exactly once, and proceed whatever that second check returns. -/
theorem fetch_rate_gate_never_rejects :
    (∀ (oracle : Nat → AttemptOutcome) (address : String)
        (maxRetries fuel attempt : Nat) (lastError : Option FailureCause)
        (st1 st2 : FetchTrace),
        (runAttempts oracle address maxRetries fuel attempt lastError st1).1
          = (runAttempts oracle address maxRetries fuel attempt lastError st2).1)
      ∧ ∀ st : FetchTrace, (checkRateLimit st.time st.rate).1 = false →
          gateStage st
            = (gateT (sleepT (RATE_LIMIT_WINDOW - (st.time - st.rate.lastRequestTime))
                (gateT st).2)).2 := by
  constructor
  · intro oracle address maxRetries fuel
    exact runAttempts_result_state_independent oracle address maxRetries fuel
  · intro st hfalse
    have hd := checkRateLimit_deny_eq st.time st.rate hfalse
    simp [gateStage, gateT, hfalse, hd]

theorem fetch_rate_gate_never_rejects_witness :
    (runAttempts (fun _ => AttemptOutcome.nonAxiosThrow) ("0xa") 3 4 0 none
        ⟨0, initialRateLimitState, [], 0, 0⟩).1
      = (runAttempts (fun _ => AttemptOutcome.nonAxiosThrow) ("0xa") 3 4 0 none
          ⟨123, ⟨30, 0⟩, [], 5, 7⟩).1
      ∧ gateStage ⟨0, ⟨30, 0⟩, [], 0, 0⟩
        = (gateT (sleepT (RATE_LIMIT_WINDOW - ((0 : ℚ) - 0))
            (gateT ⟨0, ⟨30, 0⟩, [], 0, 0⟩).2)).2 :=
  ⟨fetch_rate_gate_never_rejects.1 (fun _ => AttemptOutcome.nonAxiosThrow) ("0xa") 3 4 0
      none ⟨0, initialRateLimitState, [], 0, 0⟩ ⟨123, ⟨30, 0⟩, [], 5, 7⟩,
   fetch_rate_gate_never_rejects.2 ⟨0, ⟨30, 0⟩, [], 0, 0⟩ qfact_deny30⟩

lemma unwrap_some_uri (address : String) (resp : ZoraGraphQLResponse)
    (art : FirstMintedArtwork)
    (h : unwrapEnvelope address resp = UnwrapResult.value (some art)) :
    art.downloadableUri ≠ "" := by
  unfold unwrapEnvelope at h
  repeat' split at h
  all_goals try simp_all
  rename_i hne
  subst h
  simpa using hne

lemma runAttempts_ok_some (oracle : Nat → AttemptOutcome) (address : String)
    (maxRetries : Nat) :
    ∀ (fuel attempt : Nat) (lastError : Option FailureCause) (st : FetchTrace)
      (art : FirstMintedArtwork) (tr : FetchTrace),
      runAttempts oracle address maxRetries fuel attempt lastError st
        = (FetchOutcome.ok (some art), tr) →
      art.downloadableUri ≠ "" := by
  intro fuel
  induction fuel with
  | zero => intro a le st art tr h; simp [runAttempts] at h
  | succ f ih =>
    intro a le st art tr h
    simp only [runAttempts] at h
    by_cases ha : address = ""
    · simp [ha] at h
    · simp only [if_neg ha] at h
      split at h
      · rename_i resp heq
        cases hu : unwrapEnvelope address resp
        · rename_i v
          rw [hu] at h
          simp only [Prod.mk.injEq, FetchOutcome.ok.injEq] at h
          exact unwrap_some_uri address resp art (h.1 ▸ hu)
        · rw [hu] at h
          simp at h
      · split_ifs at h <;> first | simp at h | exact ih _ _ _ _ _ h
      · split_ifs at h <;> first | simp at h | exact ih _ _ _ _ _ h
      · split_ifs at h <;> first | simp at h | exact ih _ _ _ _ _ h
      · simp at h
      · simp at h

lemma sample_ok_run :
    fetchFirstMintedArtwork
        (fun _ => AttemptOutcome.success (sampleResponse (some ("ipfs://xyz"))))
        ("0xb") 3 0 initialRateLimitState
      = (FetchOutcome.ok (some { downloadableUri := "ipfs://xyz", address := "0xb" }),
         { time := 0, rate := { requestCount := 1, lastRequestTime := 0 }, waits := [],
           httpCalls := 1, gateCalls := 1 }) := by
  have hu2 : unwrapEnvelope ("0xb") (sampleResponse (some ("ipfs://xyz")))
      = UnwrapResult.value
          (some { downloadableUri := "ipfs://xyz", address := "0xb" }) := rfl
  rw [fetch_success_attempt0 ("0xb") (by decide) 3, hu2]

/-- Claim C9: a non-null resolved artwork always carries a nonempty
downloadable URI, and an envelope whose first edge holds an
empty-string downloadableUri leaf unwraps to null rather than to a
result with an empty URI. -/
theorem fetch_result_uri_nonempty :
    (∀ (oracle : Nat → AttemptOutcome) (address : String) (maxRetries : Nat)
        (startTime : ℚ) (rate0 : RateLimitState) (art : FirstMintedArtwork)
        (tr : FetchTrace),
        fetchFirstMintedArtwork oracle address maxRetries startTime rate0
          = (FetchOutcome.ok (some art), tr) →
        art.downloadableUri ≠ "")
      ∧ ∀ (address : String) (resp : ZoraGraphQLResponse) (e : EdgeObj)
          (es : List EdgeObj) (n : NodeObj),
          edgesChain resp = some (e :: es) → e.node = some n →
          nodeUri n = some ("") →
          unwrapEnvelope address resp = UnwrapResult.value none := by
  constructor
  · intro oracle address m t r art tr h
    exact runAttempts_ok_some oracle address m _ _ _ _ _ _ h
  · intro address resp e es n he hn hu
    simp [unwrapEnvelope, he, hn, hu]

theorem fetch_result_uri_nonempty_witness :
    ({ downloadableUri := "ipfs://xyz", address := "0xb" }
        : FirstMintedArtwork).downloadableUri ≠ ""
      ∧ unwrapEnvelope ("0xb") (sampleResponse (some ("")))
          = UnwrapResult.value none :=
  ⟨fetch_result_uri_nonempty.1
      (fun _ => AttemptOutcome.success (sampleResponse (some ("ipfs://xyz"))))
      ("0xb") 3 0 initialRateLimitState
      { downloadableUri := "ipfs://xyz", address := "0xb" }
      { time := 0, rate := { requestCount := 1, lastRequestTime := 0 }, waits := [],
        httpCalls := 1, gateCalls := 1 } sample_ok_run,
   fetch_result_uri_nonempty.2 ("0xb") (sampleResponse (some ("")))
      (sampleEdge (some (""))) [] _ rfl rfl rfl⟩

lemma hm_slow : matchTryAgainSeconds ("please slow down") = none := rfl

lemma hp_5 : parseIntLeading ("5") = some 5 := rfl

lemma htruthy_slow : strTruthy (some ("please slow down")) = true := rfl

/-- Claim C2 counterexample: on a 429 whose detail field is present
but does not match the try-again pattern while a Retry-After header of
5 is also present, at attempt 0, the source computes 1000 ms of
exponential backoff, whereas the claimed precedence demands the header
value of 5000 ms; the header is consulted only when the detail field
is absent. -/
theorem computeWait429_precedence_counterexample :
    computeWait429 0 (some ("please slow down")) (some ("5")) = some 1000
      ∧ computeWait429Claimed 0 (some ("please slow down")) (some ("5")) = some 5000
      ∧ computeWait429 0 (some ("please slow down")) (some ("5"))
          ≠ computeWait429Claimed 0 (some ("please slow down")) (some ("5")) := by
  have h1 : computeWait429 0 (some ("please slow down")) (some ("5"))
      = some 1000 := by
    norm_num [computeWait429, htruthy_slow, hm_slow]
  have h2 : computeWait429Claimed 0 (some ("please slow down")) (some ("5"))
      = some 5000 := by
    norm_num [computeWait429Claimed, hm_slow, hp_5]
  refine ⟨h1, h2, ?_⟩
  rw [h1, h2]
  norm_num

/-- Claim C2 as amended: for a 429 failure the wait is the parsed
try-again seconds times 1000 whenever the detail field is a nonempty
string matching the pattern, regardless of any Retry-After header; a
nonempty detail that does not match falls back to exponential backoff
even when a Retry-After header is present; the header value times 1000
is used exactly when the detail field is absent; and with neither hint
the wait is two to the attempt times 1000 ms. The parsed 2.5 seconds
example gives exactly 2500 ms. -/
theorem computeWait429_amended :
    (∀ (a : Nat) (d : String) (ra : Option String) (q : ℚ), d ≠ "" →
        matchTryAgainSeconds d = some q →
        computeWait429 a (some d) ra = some (q * 1000))
      ∧ (∀ (a : Nat) (d : String) (ra : Option String), d ≠ "" →
          matchTryAgainSeconds d = none →
          computeWait429 a (some d) ra = some ((2 : ℚ) ^ a * 1000))
      ∧ (∀ (a : Nat) (hdr : String) (n : Int), hdr ≠ "" →
          parseIntLeading hdr = some n →
          computeWait429 a none (some hdr) = some ((n : ℚ) * 1000))
      ∧ (∀ a : Nat, computeWait429 a none none = some ((2 : ℚ) ^ a * 1000))
      ∧ computeWait429 1 (some ("try again after 2.5 seconds")) (some ("7"))
          = some 2500 := by
  have key : ∀ (a : Nat) (d : String) (ra : Option String) (q : ℚ), d ≠ "" →
      matchTryAgainSeconds d = some q →
      computeWait429 a (some d) ra = some (q * 1000) := by
    intro a d ra q hd hm
    have ht : strTruthy (some d) = true := by simp [strTruthy, hd]
    simp [computeWait429, ht, hm]
  refine ⟨key, ?_, ?_, ?_, ?_⟩
  · intro a d ra hd hm
    have ht : strTruthy (some d) = true := by simp [strTruthy, hd]
    simp [computeWait429, ht, hm]
  · intro a hdr n hne hp
    simp [computeWait429, strTruthy, hne, hp]
  · intro a
    simp [computeWait429, strTruthy]
  · have hm : matchTryAgainSeconds ("try again after 2.5 seconds")
        = some (((2 : Nat) : ℚ) + ((5 : Nat) : ℚ) / (10 : ℚ) ^ (1 : Nat)) := rfl
    rw [key 1 ("try again after 2.5 seconds") (some ("7")) _ (by decide) hm]
    norm_num

lemma hm_3sec : matchTryAgainSeconds ("try again after 3 seconds")
    = some (((3 : Nat) : ℚ)) := rfl

theorem computeWait429_amended_witness :
    computeWait429 0 (some ("try again after 3 seconds")) (some ("9"))
        = some ((((3 : Nat) : ℚ)) * 1000)
      ∧ computeWait429 4 none (some ("5")) = some (((5 : Int) : ℚ) * 1000)
      ∧ computeWait429 2 none none = some ((2 : ℚ) ^ 2 * 1000) :=
  ⟨computeWait429_amended.1 0 ("try again after 3 seconds") (some ("9"))
      (((3 : Nat) : ℚ)) (by decide) hm_3sec,
   computeWait429_amended.2.2.1 4 ("5") 5 (by decide) hp_5,
   computeWait429_amended.2.2.2.1 2⟩
